import Mathlib

/-!
Shallow embedding of `lib/strategy.js` of the passport-vkontakte OAuth 2.0
strategy, together with theorems checking the specification's claims against
it.  JavaScript values flowing through the code are modelled explicitly:
parsed JSON documents as an inductive `JValue`, HTTP response bodies as a raw
string paired with the outcome of `JSON.parse` on it, and the JS truthiness
tests the source performs as Boolean functions on those models.
-/

/-- Model of a parsed JSON document / JavaScript value as produced by
`JSON.parse`: `obj` models a parsed JS object, so its field list has distinct
keys.  Numbers are modelled as integers (all numeric fields the strategy
touches are integral). -/
inductive JValue where
  | null
  | bool (b : Bool)
  | num (n : Int)
  | str (s : String)
  | arr (elems : List JValue)
  | obj (fields : List (String × JValue))

/-- Property access `v.k` on a JS value: `none` models `undefined` (missing
field or access on a non-object). -/
def jGet (v : JValue) (k : String) : Option JValue :=
  match v with
  | .obj fields => (fields.find? (fun p => p.1 = k)).map (fun p => p.2)
  | _ => none

/-- JS truthiness of a JSON value: `null`, `false`, `0` and `""` are falsy;
arrays and objects are always truthy. -/
def jTruthy : JValue → Bool
  | .null => false
  | .bool b => b
  | .num n => n != 0
  | .str s => s != ""
  | .arr _ => true
  | .obj _ => true

/-- JS truthiness of a possibly-`undefined` value (`none` is falsy). -/
def jTruthyOpt : Option JValue → Bool
  | none => false
  | some v => jTruthy v

/-- Whether `typeof v == 'object'` holds in JS for a JSON value: true for
`null`, arrays and objects. -/
def jTypeofObject : JValue → Bool
  | .null => true
  | .arr _ => true
  | .obj _ => true
  | _ => false

/-- Property access that additionally projects a string value. -/
def jGetStr (v : JValue) (k : String) : Option String :=
  match jGet v k with
  | some (.str s) => some s
  | _ => none

/-- An HTTP response body: the raw string received on the wire together with
the outcome of `JSON.parse` on it (`none` models a body on which `JSON.parse`
throws). -/
structure Body where
  raw : String
  parsed : Option JValue

/-- The fixed required field list of `userProfile` (strategy.js lines
150-157): `uid, first_name, last_name, screen_name, sex, photo_<size>`. -/
def requiredFields (photoSize : Nat) : List String :=
  ["uid", "first_name", "last_name", "screen_name", "sex",
   "photo_" ++ toString photoSize]

/-- The field list sent as the `fields` query parameter (strategy.js lines
150-161): the required fields, then each caller-requested profile field is
appended iff it is not already present (`fields.indexOf(f) < 0` against the
growing list). -/
def mkFields (photoSize : Nat) (profileFields : List String) : List String :=
  profileFields.foldl
    (fun fields f => if f ∈ fields then fields else fields ++ [f])
    (requiredFields photoSize)

/-- Spec-side description of the appended caller fields: de-duplicate a list
keeping the first occurrence of each element, `seen` holding the elements
already kept. -/
def dedupKeepFirst (seen : List String) : List String → List String
  | [] => []
  | f :: fs =>
      if f ∈ seen then dedupKeepFirst seen fs
      else f :: dedupKeepFirst (seen ++ [f]) fs

/-- Spec-side description of the `fields` parameter, following the claim's
words: the required set followed by exactly those caller fields not already in
that set, de-duplicated, in caller order. -/
def specFields (photoSize : Nat) (profileFields : List String) : List String :=
  requiredFields photoSize ++
    dedupKeepFirst []
      (profileFields.filter (fun f => decide (¬ f ∈ requiredFields photoSize)))

/-- A photo descriptor `{ value: url }` in the normalized profile. -/
structure PhotoEntry where
  value : String
deriving DecidableEq

/-- An email descriptor `{ value: email }` in the normalized profile. -/
structure EmailEntry where
  value : String
deriving DecidableEq

/-- The normalized profile object.  Fields the code has not (yet) assigned are
`none`, modelling an absent JS property: `parse` leaves `provider`, `raw` and
`json` unset and `userProfile` then assigns them; `emails` is only ever
assigned by the verify-callback wrapper.  `raw` and `json` model the `_raw`
and `_json` properties. -/
structure NormalizedProfile where
  provider : Option String := none
  id : Option JValue := none
  displayName : Option String := none
  familyName : Option String := none
  givenName : Option String := none
  gender : String := "unknown"
  photos : List PhotoEntry := []
  city : Option JValue := none
  emails : Option (List EmailEntry) := none
  raw : Option String := none
  json : Option JValue := none

/-- Modelled from the spec: `lib/profile.js` (`parse`) is not under `src/`;
only its caller `userProfile` is.  Spec section 4.4: numeric id passed through
as the stable identifier (the `uid` field of the record); display name
synthesized from given+family name; structured name family/given; gender
mapped from the numeric sex code (1 to female, 2 to male, otherwise
unspecified); the requested-size photo field mapped to a single-element photo
list; city passed through only if present. -/
def parse (photoSize : Nat) (json : JValue) : NormalizedProfile :=
  { id := jGet json "uid"
    displayName :=
      match jGetStr json "first_name", jGetStr json "last_name" with
      | some f, some l => some (f ++ " " ++ l)
      | _, _ => none
    familyName := jGetStr json "last_name"
    givenName := jGetStr json "first_name"
    gender :=
      match jGet json "sex" with
      | some (.num 1) => "female"
      | some (.num 2) => "male"
      | _ => "unknown"
    photos :=
      match jGetStr json ("photo_" ++ toString photoSize) with
      | some u => [⟨u⟩]
      | none => []
    city := jGet json "city" }

/-- An error value delivered through the `done` callback of `userProfile`
(strategy.js lines 167-183), one constructor per error class reaching it.
`VkontakteAPIError` and `VkontakteTokenError` live in `lib/errors/`, not under
`src/`; modelled from the spec as typed errors carrying the provider's message
and code (section 4.5), here the raw values of the `error_msg` and
`error_code` fields. -/
inductive StrategyError where
  | internalOAuth (msg : String)
  | api (message code : Option JValue)
  | jsonParse
  | shape

/-- JS indexing `v[0]` on the `response` value: first element of an array,
the `"0"` property of an object, the first character of a non-empty string;
`none` covers both `undefined` results and the `TypeError` thrown when
indexing `null` — in the caller either one leads into the catch block, since
`parse` applied to `undefined` throws as soon as it touches a property. -/
def responseFirst (v : JValue) : Option JValue :=
  match v with
  | .arr (x :: _) => some x
  | .obj fields => (fields.find? (fun p => p.1 = "0")).map (fun p => p.2)
  | .str s => if s = "" then none else some (.str (String.singleton s.front))
  | _ => none

/-- Lines 173-180 of strategy.js: `json = json.response[0]; var profile =
parse(json); profile.provider = 'vkontakte'; profile._raw = body;
profile._json = json;` — indexing `undefined` (missing `response`) throws and
a missing record makes `parse` throw, both landing in the catch block. -/
def userProfileFromRecord (photoSize : Nat) (body : Body) (json : JValue) :
    Except StrategyError NormalizedProfile :=
  match (jGet json "response").bind responseFirst with
  | some record =>
      .ok { parse photoSize record with
              provider := some "vkontakte"
              raw := some body.raw
              json := some record }
  | none => .error .shape

/-- The response-handling continuation of `userProfile` (strategy.js lines
170-183): parse the body, throw a `VkontakteAPIError` when `json.error` is
truthy, then hand over to the record extraction; every thrown exception is
caught and delivered through `done`, modelled by `Except.error`. -/
def userProfileFromBody (photoSize : Nat) (body : Body) :
    Except StrategyError NormalizedProfile :=
  match body.parsed with
  | none => .error .jsonParse
  | some json =>
      match jGet json "error" with
      | some e =>
          if jTruthy e then
            .error (.api (jGet e "error_msg") (jGet e "error_code"))
          else
            userProfileFromRecord photoSize body json
      | none => userProfileFromRecord photoSize body json

/-- Result of `Strategy.prototype.parseErrorResponse` when it returns: either
a `VkontakteTokenError` (from `lib/errors/`, not under `src/`; modelled from
the spec as a typed token error carrying message and code) or the value of
delegating to `OAuth2Strategy.prototype.parseErrorResponse` on the same body
and status. -/
inductive TokenErrResult where
  | vkToken (message code : Option JValue)
  | oauthDefault (body : String) (status : Int)

/-- Outcome of calling `parseErrorResponse`: the function either returns an
error value or the unguarded `JSON.parse(body)` throws synchronously. -/
inductive ParseErrorOutcome where
  | thrown
  | returned (e : TokenErrResult)

/-- `Strategy.prototype.parseErrorResponse` (strategy.js lines 195-201):
`JSON.parse` the body (unguarded — a parse failure propagates as a thrown
exception); if `json.error` is truthy and `typeof json.error == 'object'`,
return a `VkontakteTokenError` with the error object's `error_msg` and
`error_code`; otherwise delegate to the generic OAuth2 parsing. -/
def parseErrorResponse (body : Body) (status : Int) : ParseErrorOutcome :=
  match body.parsed with
  | none => .thrown
  | some json =>
      match jGet json "error" with
      | some e =>
          if jTruthy e && jTypeofObject e then
            .returned (.vkToken (jGet e "error_msg") (jGet e "error_code"))
          else
            .returned (.oauthDefault body.raw status)
      | none => .returned (.oauthDefault body.raw status)

/-- The caller-supplied options object: `none` models an omitted property. -/
structure Options where
  authorizationURL : Option String := none
  tokenURL : Option String := none
  scopeSeparator : Option String := none
  passReqToCallback : Option Bool := none
  lang : Option String := none
  photoSize : Option Nat := none
  profileURL : Option String := none
  profileFields : Option (List String) := none
  apiVersion : Option String := none

/-- JS defaulting `v || d` for a string option: an omitted or empty (falsy)
string yields the default. -/
def strDefault (v : Option String) (d : String) : String :=
  match v with
  | none => d
  | some s => if s = "" then d else s

/-- JS defaulting `v || d` for a numeric option: omitted or `0` (falsy)
yields the default. -/
def natDefault (v : Option Nat) (d : Nat) : Nat :=
  match v with
  | none => d
  | some n => if n = 0 then d else n

/-- The options object as it is handed to `OAuth2Strategy.call` (strategy.js
lines 52-63): endpoint and separator defaults applied, `passReqToCallback`
overwritten with `true`, and no `lang`/`photoSize` members — those are
deleted before the call. -/
structure ForwardedOptions where
  authorizationURL : String
  tokenURL : String
  scopeSeparator : String
  passReqToCallback : Bool

/-- The verify-callback value registered with the external OAuth2 client:
either the application's own callback of some declared arity, or that
callback wrapped by `verifyWrapper`. -/
inductive VerifyFn where
  | appVerify (arity : Nat)
  | wrapped (arity : Nat)

/-- The state a `Strategy` instance holds after construction (strategy.js
lines 50-68). -/
structure StrategyState where
  oauth : ForwardedOptions
  registeredVerify : VerifyFn
  name : String
  lang : String
  photoSize : Nat
  profileURL : String
  profileFields : List String
  apiVersion : String

/-- The `Strategy` constructor (strategy.js lines 50-68), taking the options
object and the declared arity of the application's `verify` callback.  Line
63 is `OAuth2Strategy.call(this, options, verify)`: the callback registered
with the OAuth2 client is the application's `verify` itself, not
`verifyWrapper(options, verify)`. -/
def mkStrategy (options : Options) (verifyArity : Nat) : StrategyState :=
  { oauth :=
      { authorizationURL :=
          strDefault options.authorizationURL "https://oauth.vk.com/authorize"
        tokenURL := strDefault options.tokenURL "https://oauth.vk.com/access_token"
        scopeSeparator := strDefault options.scopeSeparator ","
        passReqToCallback := true }
    registeredVerify := .appVerify verifyArity
    name := "vkontakte"
    lang := strDefault options.lang "en"
    photoSize := natDefault options.photoSize 200
    profileURL := strDefault options.profileURL "https://api.vk.com/method/users.get"
    profileFields := options.profileFields.getD []
    apiVersion := strDefault options.apiVersion "5.110" }

/-- The profile request URL built by `userProfile` (strategy.js lines
147-165). -/
def profileRequestURL (s : StrategyState) : String :=
  s.profileURL ++ "?fields=" ++
    String.intercalate "," (mkFields s.photoSize s.profileFields) ++
    "&v=" ++ s.apiVersion ++ "&https=1" ++
    (if s.lang ≠ "" then "&lang=" ++ s.lang else "")

/-- The token-exchange parameters object (`params`); only its `email` member
matters to the strategy. -/
structure Params where
  email : Option String := none

/-- The argument list with which the application's verify callback is
invoked (its trailing `done`/`verified` argument is implicit in every
shape). -/
inductive CallArgs where
  | withReq (req accessToken refreshToken : String) (params : Option Params)
      (profile : NormalizedProfile)
  | withParams (accessToken refreshToken : String) (params : Option Params)
      (profile : NormalizedProfile)
  | plain (accessToken refreshToken : String) (profile : NormalizedProfile)

/-- What one completion of the token exchange does with the application's
callback: invokes it with some argument list, or reports an error through
`this.error` without invoking it. -/
inductive DispatchOutcome where
  | called (args : CallArgs)
  | errored (msg : String)

/-- Lines 83-85 of strategy.js: `if (params && params.email)
profile.emails = [{value: params.email}]` — both `params` and its `email`
member must be truthy (a present but empty email string is falsy). -/
def injectEmail (params : Option Params) (profile : NormalizedProfile) :
    NormalizedProfile :=
  match params with
  | some ps =>
      match ps.email with
      | some e => if e = "" then profile else { profile with emails := some [⟨e⟩] }
      | none => profile
  | none => profile

/-- The `passportVerify` closure returned by `verifyWrapper` (strategy.js
lines 81-100): inject the email claim into the profile, then dispatch on the
declared arity of the wrapped `verify`; any other arity reports an `Error`
through `this.error` and never invokes `verify`. -/
def passportVerify (arity : Nat) (req accessToken refreshToken : String)
    (params : Option Params) (profile : NormalizedProfile) : DispatchOutcome :=
  let profile := injectEmail params profile
  if arity = 6 then
    .called (.withReq req accessToken refreshToken params profile)
  else if arity = 5 then
    .called (.withParams accessToken refreshToken params profile)
  else if arity = 4 then
    .called (.plain accessToken refreshToken profile)
  else
    .errored "VKontakteStrategy: verify callback must take 4 or 5 parameters"

/-- Models the external OAuth2 client's contract (spec sections 2 and 6):
with `passReqToCallback` forced on, after a token exchange it calls the
registered verify callback with the six arguments `(req, accessToken,
refreshToken, params, profile, done)`.  A plain application function
registered directly receives that six-argument list as-is (its declared
parameters bind a prefix of it); a registered wrapper runs
`passportVerify`. -/
def oauthClientDispatch (cb : VerifyFn) (req accessToken refreshToken : String)
    (params : Option Params) (profile : NormalizedProfile) : DispatchOutcome :=
  match cb with
  | .appVerify _ => .called (.withReq req accessToken refreshToken params profile)
  | .wrapped arity => passportVerify arity req accessToken refreshToken params profile

/-- The condition of line 197, `json.error && typeof json.error == 'object'`,
as a predicate on the parsed body (`undefined` short-circuits to falsy). -/
def hasObjectError (json : JValue) : Bool :=
  match jGet json "error" with
  | some e => jTruthy e && jTypeofObject e
  | none => false

/-- The single user record of the sample profile response used in the spec's
testable properties. -/
def sampleRecord : JValue :=
  .obj [("uid", .num 1), ("first_name", .str "A"), ("last_name", .str "B"),
        ("sex", .num 2), ("photo_200", .str "http://x")]

/-- The parsed sample profile response `{ response: [ sampleRecord ] }`. -/
def sampleBodyJSON : JValue :=
  .obj [("response", .arr [sampleRecord])]

/-- The sample profile response body: raw JSON text and its parse. -/
def sampleBody : Body :=
  { raw := "\x7b\x22response\x22:[\x7b\x22uid\x22:1,\x22first_name\x22:\x22A\x22,\x22last_name\x22:\x22B\x22,\x22sex\x22:2,\x22photo_200\x22:\x22http://x\x22\x7d]\x7d"
    parsed := some sampleBodyJSON }

/-- A profile response body carrying a provider error payload
`{ error: { error_msg: "Invalid token", error_code: 5 } }`. -/
def apiErrorBody : Body :=
  { raw := "\x7b\x22error\x22:\x7b\x22error_msg\x22:\x22Invalid token\x22,\x22error_code\x22:5\x7d\x7d"
    parsed := some (.obj [("error",
      .obj [("error_msg", .str "Invalid token"), ("error_code", .num 5)])]) }

/-- A token endpoint response body carrying
`{ error: { error_msg: "invalid_grant", error_code: 100 } }`. -/
def tokenErrorBody : Body :=
  { raw := "\x7b\x22error\x22:\x7b\x22error_msg\x22:\x22invalid_grant\x22,\x22error_code\x22:100\x7d\x7d"
    parsed := some (.obj [("error",
      .obj [("error_msg", .str "invalid_grant"), ("error_code", .num 100)])]) }

/-- A token endpoint response body whose `error` field is a plain string, so
not object-shaped: `{ error: "access_denied" }`. -/
def stringErrorBody : Body :=
  { raw := "\x7b\x22error\x22:\x22access_denied\x22\x7d"
    parsed := some (.obj [("error", .str "access_denied")]) }

theorem foldlPush_eq_append_dedup (pfs : List String) :
    ∀ init : List String,
      pfs.foldl (fun fields f => if f ∈ fields then fields else fields ++ [f])
        init
      = init ++ dedupKeepFirst init pfs := by
  induction pfs with
  | nil => intro init; simp [dedupKeepFirst]
  | cons f fs ih =>
      intro init
      by_cases h : f ∈ init
      · simp [dedupKeepFirst, h, ih]
      · simp [dedupKeepFirst, h, ih (init ++ [f])]

theorem dedupKeepFirst_filter (required : List String) (pfs : List String) :
    ∀ seen : List String,
      dedupKeepFirst (required ++ seen) pfs
      = dedupKeepFirst seen (pfs.filter (fun f => decide (¬ f ∈ required))) := by
  induction pfs with
  | nil => intro seen; simp [dedupKeepFirst]
  | cons f fs ih =>
      intro seen
      by_cases hr : f ∈ required
      · have : f ∈ required ++ seen := List.mem_append_left _ hr
        simp [dedupKeepFirst, this, hr, ih]
      · by_cases hs : f ∈ seen
        · have : f ∈ required ++ seen := List.mem_append_right _ hs
          simp [dedupKeepFirst, this, hr, hs, ih]
        · have hmem : ¬ f ∈ required ++ seen := by
            simp [List.mem_append, hr, hs]
          have h2 := ih (seen ++ [f])
          rw [← List.append_assoc] at h2
          simp [dedupKeepFirst, hmem, hr, hs]
          simpa using h2

/-- C5: for every list of caller-requested extra profile fields, the `fields`
query parameter consists of the fixed required set (uid, first_name,
last_name, screen_name, sex, photo_<configured size>) followed by exactly
those caller fields not already in that set, de-duplicated and in the
caller-specified order. -/
theorem fields_param_is_required_then_dedup_extras
    (photoSize : Nat) (profileFields : List String) :
    mkFields photoSize profileFields = specFields photoSize profileFields := by
  rw [mkFields, specFields, foldlPush_eq_append_dedup]
  congr 1
  have h := dedupKeepFirst_filter (requiredFields photoSize) profileFields []
  rw [List.append_nil] at h
  exact h

/-- C6: a configuration omitting every optional field resolves to the
documented defaults exactly (authorization URL, token URL, scope separator,
locale, photo size, API version, profile URL), and `passReqToCallback` is
forced on for every configuration input. -/
theorem config_defaults_and_forced_passReq :
    (∀ arity : Nat,
      (mkStrategy {} arity).oauth.authorizationURL = "https://oauth.vk.com/authorize" ∧
      (mkStrategy {} arity).oauth.tokenURL = "https://oauth.vk.com/access_token" ∧
      (mkStrategy {} arity).oauth.scopeSeparator = "," ∧
      (mkStrategy {} arity).lang = "en" ∧
      (mkStrategy {} arity).photoSize = 200 ∧
      (mkStrategy {} arity).apiVersion = "5.110" ∧
      (mkStrategy {} arity).profileURL = "https://api.vk.com/method/users.get") ∧
    (∀ (opts : Options) (arity : Nat),
      (mkStrategy opts arity).oauth.passReqToCallback = true) :=
  ⟨fun _ => ⟨rfl, rfl, rfl, rfl, rfl, rfl, rfl⟩, fun _ _ => rfl⟩

/-- C3: for every strategy instance, the callback registered with the
external OAuth2 client at construction is the application's verify function
itself, so the client's dispatch forwards the six token-exchange arguments to
the application untouched and the `verifyWrapper`/`passportVerify` behaviour
never runs. -/
theorem registered_callback_is_raw_verify
    (opts : Options) (arity : Nat) (req accessToken refreshToken : String)
    (params : Option Params) (profile : NormalizedProfile) :
    (mkStrategy opts arity).registeredVerify = VerifyFn.appVerify arity ∧
    oauthClientDispatch (mkStrategy opts arity).registeredVerify
        req accessToken refreshToken params profile
      = .called (.withReq req accessToken refreshToken params profile) :=
  ⟨rfl, rfl⟩

/-- C10: for every token-endpoint response body that is not valid JSON,
`parseErrorResponse` throws synchronously out of the unguarded `JSON.parse`,
while the profile-fetch path catches the same parse failure and delivers it
through the `done` callback. -/
theorem unguarded_token_parse_vs_guarded_profile_parse
    (raw : String) (status : Int) (photoSize : Nat) :
    parseErrorResponse { raw := raw, parsed := none } status = .thrown ∧
    userProfileFromBody photoSize { raw := raw, parsed := none }
      = .error .jsonParse :=
  ⟨rfl, rfl⟩

/-- C4: on the profile response `{ response: [ { uid: 1, first_name: "A",
last_name: "B", sex: 2, photo_200: "http://x" } ] }`, the normalized profile
delivered through `done` has id 1, displayName "A B", gender "male", photos
[{value: "http://x"}], and provider "vkontakte". -/
theorem sample_profile_normalization :
    ∃ p : NormalizedProfile,
      userProfileFromBody 200 sampleBody = .ok p ∧
      p.id = some (.num 1) ∧
      p.displayName = some "A B" ∧
      p.gender = "male" ∧
      p.photos = [⟨"http://x"⟩] ∧
      p.provider = some "vkontakte" := by
  refine ⟨_, rfl, ?_, ?_, ?_, ?_, ?_⟩ <;> rfl

/-- C1 (failing-input evaluation): with a token-exchange parameter set
carrying the email claim "user@example.com", the profile produced by the
fetcher has no emails entry and, because construction registers the raw
verify callback, it reaches the application's callback unchanged — whereas
the unapplied `passportVerify` wrapper would have injected the single-element
email list. -/
theorem email_claim_never_reaches_profile :
    ∃ p : NormalizedProfile,
      userProfileFromBody 200 sampleBody = .ok p ∧
      p.emails = none ∧
      oauthClientDispatch (mkStrategy {} 4).registeredVerify
          "req" "tok" "ref" (some { email := some "user@example.com" }) p
        = .called (.withReq "req" "tok" "ref"
            (some { email := some "user@example.com" }) p) ∧
      passportVerify 4 "req" "tok" "ref"
          (some { email := some "user@example.com" }) p
        = .called (.plain "tok" "ref"
            { p with emails := some [⟨"user@example.com"⟩] }) := by
  refine ⟨_, rfl, rfl, rfl, ?_⟩
  rfl

/-- C2 (failing-input evaluation): for a verify callback declared with 3
parameters, the strategy still has the raw callback registered, so the OAuth2
client invokes it with the full six-argument list and no misconfiguration
error is reported — whereas the unapplied `passportVerify` wrapper would have
reported the arity error without invoking the callback; a 4-parameter
callback is likewise invoked with the six-argument list instead of the
documented `(accessToken, refreshToken, profile, done)` shape. -/
theorem arity_dispatch_never_runs :
    ∃ p : NormalizedProfile,
      userProfileFromBody 200 sampleBody = .ok p ∧
      oauthClientDispatch (mkStrategy {} 3).registeredVerify
          "req" "tok" "ref" (some { email := none }) p
        = .called (.withReq "req" "tok" "ref" (some { email := none }) p) ∧
      passportVerify 3 "req" "tok" "ref" (some { email := none }) p
        = .errored "VKontakteStrategy: verify callback must take 4 or 5 parameters" ∧
      oauthClientDispatch (mkStrategy {} 4).registeredVerify
          "req" "tok" "ref" (some { email := none }) p
        = .called (.withReq "req" "tok" "ref" (some { email := none }) p) := by
  exact ⟨_, rfl, rfl, rfl, rfl⟩

/-- C7: for every profile response body whose parsed JSON carries an error
object with an `error_msg` string and a numeric `error_code`, the fetch fails
with a `VkontakteAPIError` carrying exactly that message and code, and no
profile is delivered alongside it. -/
theorem profile_fetch_api_error
    (photoSize : Nat) (body : Body) (json : JValue)
    (efields : List (String × JValue)) (msg : String) (code : Int)
    (hp : body.parsed = some json)
    (he : jGet json "error" = some (.obj efields))
    (hm : jGet (JValue.obj efields) "error_msg" = some (.str msg))
    (hc : jGet (JValue.obj efields) "error_code" = some (.num code)) :
    userProfileFromBody photoSize body
      = .error (.api (some (.str msg)) (some (.num code))) ∧
    ∀ p : NormalizedProfile, userProfileFromBody photoSize body ≠ .ok p := by
  have h : userProfileFromBody photoSize body
      = .error (.api (some (.str msg)) (some (.num code))) := by
    simp [userProfileFromBody, hp, he, jTruthy, hm, hc]
  refine ⟨h, fun p hcontra => ?_⟩
  rw [h] at hcontra
  exact Except.noConfusion hcontra

/-- Witness for the API-error theorem at the body
`{ error: { error_msg: "Invalid token", error_code: 5 } }`. -/
theorem profile_fetch_api_error_witness :
    userProfileFromBody 200 apiErrorBody
      = .error (.api (some (.str "Invalid token")) (some (.num 5))) :=
  (profile_fetch_api_error 200 apiErrorBody _ _ "Invalid token" 5
    rfl rfl rfl rfl).1

/-- C8: for every token-endpoint body parsing to JSON with an object-shaped
`error` field, `parseErrorResponse` returns a `VkontakteTokenError` carrying
that object's `error_msg` and `error_code`; for every parsed body without an
object-shaped `error` field it delegates to the generic OAuth2 default
parsing on the same body and status; and the two results are distinguishable
by constructor. -/
theorem token_error_parsing (status : Int) :
    (∀ (body : Body) (json e : JValue), body.parsed = some json →
        jGet json "error" = some e → (jTruthy e && jTypeofObject e) = true →
        parseErrorResponse body status
          = .returned (.vkToken (jGet e "error_msg") (jGet e "error_code"))) ∧
    (∀ (body : Body) (json : JValue), body.parsed = some json →
        hasObjectError json = false →
        parseErrorResponse body status
          = .returned (.oauthDefault body.raw status)) ∧
    (∀ (m c : Option JValue) (b : String) (s : Int),
        TokenErrResult.vkToken m c ≠ TokenErrResult.oauthDefault b s) := by
  refine ⟨?_, ?_, ?_⟩
  · intro body json e hp he hcond
    simp [parseErrorResponse, hp, he, hcond]
  · intro body json hp hno
    cases hge : jGet json "error" with
    | none => simp [parseErrorResponse, hp, hge]
    | some e =>
        have hfalse : (jTruthy e && jTypeofObject e) = false := by
          simpa [hasObjectError, hge] using hno
        simp [parseErrorResponse, hp, hge, hfalse]
  · intro m c b s h
    exact TokenErrResult.noConfusion h

/-- Witness for the token-error theorem at the bodies
`{ error: { error_msg: "invalid_grant", error_code: 100 } }` and
`{ error: "access_denied" }`. -/
theorem token_error_parsing_witness :
    parseErrorResponse tokenErrorBody 400
      = .returned (.vkToken (some (.str "invalid_grant")) (some (.num 100))) ∧
    parseErrorResponse stringErrorBody 400
      = .returned (.oauthDefault stringErrorBody.raw 400) :=
  ⟨(token_error_parsing 400).1 tokenErrorBody _ _ rfl rfl rfl,
   (token_error_parsing 400).2.1 stringErrorBody _ rfl rfl⟩

/-- C9 as stated fails on the sample body: the delivered profile's `_json`
is the first element of the `response` array, not the parsed JSON of the
whole body. -/
theorem raw_json_verbatim_counterexample :
    ∃ p : NormalizedProfile,
      userProfileFromBody 200 sampleBody = .ok p ∧
      p.json ≠ sampleBody.parsed := by
  refine ⟨_, rfl, fun h => ?_⟩
  have h2 := congrArg
    (fun o : Option JValue => o.bind (fun j => jGet j "uid")) h
  simp [sampleRecord, sampleBodyJSON, sampleBody, jGet] at h2

/-- C9 amended: on every successful fetch, `_raw` equals the unmodified body
string and `_json` equals the first element of the parsed body's `response`
array (the user record). -/
theorem raw_retained_json_is_record
    (photoSize : Nat) (body : Body) (json record : JValue)
    (hp : body.parsed = some json)
    (hne : jTruthyOpt (jGet json "error") = false)
    (hr : (jGet json "response").bind responseFirst = some record) :
    ∃ p : NormalizedProfile,
      userProfileFromBody photoSize body = .ok p ∧
      p.raw = some body.raw ∧
      p.json = some record := by
  have hrec : userProfileFromRecord photoSize body json
      = .ok { parse photoSize record with
                provider := some "vkontakte"
                raw := some body.raw
                json := some record } := by
    simp [userProfileFromRecord, hr]
  refine ⟨{ parse photoSize record with
              provider := some "vkontakte"
              raw := some body.raw
              json := some record }, ?_, rfl, rfl⟩
  cases hge : jGet json "error" with
  | none => simp [userProfileFromBody, hp, hge, hrec]
  | some e =>
      rw [hge] at hne
      simp only [jTruthyOpt] at hne
      simp [userProfileFromBody, hp, hge, hne, hrec]

/-- Witness for the amended retention theorem at the sample body. -/
theorem raw_retained_json_is_record_witness :
    ∃ p : NormalizedProfile,
      userProfileFromBody 200 sampleBody = .ok p ∧
      p.raw = some sampleBody.raw ∧
      p.json = some sampleRecord :=
  raw_retained_json_is_record 200 sampleBody sampleBodyJSON sampleRecord
    rfl rfl rfl
